import Mathlib

/-!
Verification of the flag validation core of `cli_flag.go` (package `cli`).

The Go source is embedded shallowly: the constraint bitmask constants keep
their names and values, `CLIFlag` keeps its fields (the dispatcher callback
`fn` is never consulted by validation and is omitted), and `ValidateValue`
is translated branch for branch.  The external environment — `os.Stat`,
`os.ReadFile` and `encoding/json.Valid` — is passed in as an explicit
`FileSystem` value, and a Go runtime panic is made visible as an explicit
result constructor.

The regular expressions the source builds (`^T$` and `^T(dT)*$`, where `T`
is one of `[0-9]+`, `[0-9]{1,16}\.[0-9]{1,16}`, a character class followed
by `+`, or the empty pattern) are interpreted semantically: no delimiter
character (`,`, `:`, `;`) belongs to any instance class, and `^`/`$` anchor
at text boundaries, so a full-text match of `^T(dT)*$` holds exactly when
every delimiter-separated chunk of the value matches `T`.  All constructed
patterns are syntactically valid regular expressions, so the `err != nil`
disjunct of the source's match call is always false and is not modeled.
-/

namespace Cli

/-- Required sets flag to be required. -/
def Required : Nat := 1
/-- TypeString sets flag to be string. -/
def TypeString : Nat := 8
/-- TypePathFile sets flag to be path to a file. -/
def TypePathFile : Nat := 16
/-- TypeBool sets flag to be boolean. -/
def TypeBool : Nat := 32
/-- TypeInt sets flag to be integer. -/
def TypeInt : Nat := 64
/-- TypeFloat sets flag to be float. -/
def TypeFloat : Nat := 128
/-- TypeAlphanumeric sets flag to be alphanumeric. -/
def TypeAlphanumeric : Nat := 256
/-- MustExist sets flag must point to an existing file. -/
def MustExist : Nat := 512
/-- AllowMany allows flag to have more than one value, separated by comma by default. -/
def AllowMany : Nat := 1024
/-- ManySeparatorColon selects colon as the AllowMany separator. -/
def ManySeparatorColon : Nat := 2048
/-- ManySeparatorSemiColon selects semi-colon as the AllowMany separator. -/
def ManySeparatorSemiColon : Nat := 4096
/-- AllowDots additionally allows dots in an alphanumeric value. -/
def AllowDots : Nat := 8192
/-- AllowUnderscore additionally allows underscores in an alphanumeric value. -/
def AllowUnderscore : Nat := 16384
/-- AllowHyphen additionally allows hyphens in an alphanumeric value. -/
def AllowHyphen : Nat := 32768
/-- TypeEmail sets flag to be an email. -/
def TypeEmail : Nat := 65536
/-- TypeFQDN sets flag to be a FQDN. -/
def TypeFQDN : Nat := 131072
/-- TypePathDir sets flag to be a directory. -/
def TypePathDir : Nat := 262144
/-- TypePathRegularFile sets flag to be a regular file. -/
def TypePathRegularFile : Nat := 524288
/-- ValidJSON sets a regular-file flag to require JSON contents. -/
def ValidJSON : Nat := 1048576

/-- Go `nflags & K > 0` for one of the positive bit constants `K`: the bitwise
AND of an `int32` with a positive constant is non-negative, so `> 0` is exactly
`≠ 0`.  `nflags` is the 32-bit pattern of the `int32` field, read unsigned,
which leaves `&` unchanged. -/
def bset (n k : Nat) : Bool := n &&& k != 0

/-- Outcome of `os.Stat` as the validator observes it: an error satisfying
`os.IsNotExist`, some other non-nil error (for example a permission failure,
in which case the returned `FileInfo` is nil), or success together with
`Mode().IsRegular()` and `IsDir()` of the entry. -/
inductive StatResult where
| notExist : StatResult
| statErr : StatResult
| found (isRegular : Bool) (isDir : Bool) : StatResult
deriving DecidableEq, Repr

/-- The environment the validator consults: `stat` models `os.Stat`,
`readFile` models `os.ReadFile` (`none` is a read error), and `jsonValid`
models `encoding/json.Valid` applied to the bytes read. -/
structure FileSystem where
  stat : String → StatResult
  readFile : String → Option String
  jsonValid : String → Bool

/-- Outcome of `ValidateValue`: the Go function returns `nil`, returns a
non-nil `error` carrying a message, or — on the nil-`FileInfo` dereference —
raises a runtime panic, which propagates instead of being returned. -/
inductive VResult where
| ok : VResult
| err (msg : String) : VResult
| goPanic (msg : String) : VResult
deriving DecidableEq, Repr

/-- `CLIFlag` from `cli_flag.go`.  `nflags` is the `int32` constraint bitmask
(its 32-bit pattern); the `fn` callback is owned by the command dispatcher,
never consulted by validation, and omitted here. -/
structure CLIFlag where
  name : String
  «alias» : String
  helpValue : String
  desc : String
  nflags : Nat

/-- `IsRequireValue` (`cli_flag.go` lines 77–79): true when the flag requires
a value (only the bool type returns false). -/
def CLIFlag.IsRequireValue (c : CLIFlag) : Bool :=
  bset c.nflags TypeString || bset c.nflags TypePathFile || bset c.nflags TypePathRegularFile ||
  bset c.nflags TypePathDir || bset c.nflags TypeInt || bset c.nflags TypeFloat ||
  bset c.nflags TypeAlphanumeric

/-- Splits a character list at every occurrence of the delimiter, keeping
empty chunks; `splitOnChar d cs` always returns at least one chunk.  Used to
interpret the source's anchored patterns `^T(dT)*$`: no delimiter character
occurs in any instance pattern `T`, so a full-text match is exactly "every
chunk matches `T`". -/
def splitOnChar (d : Char) : List Char → List (List Char)
| [] => [[]]
| c :: rest =>
  let r := splitOnChar d rest
  if c == d then
    [] :: r
  else
    match r with
    | [] => [[c]]
    | p :: ps => (c :: p) :: ps

/-- The character class the source selects for `TypeAlphanumeric`
(`cli_flag.go` lines 160–177).  The if/else chain is reproduced exactly; note
it has no branch for `AllowHyphen` alone, which therefore falls through to the
plain `[0-9a-zA-Z]` class. -/
def anumClass (n : Nat) (ch : Char) : Bool :=
  if bset n AllowHyphen && bset n AllowUnderscore && bset n AllowDots then
    ch.isAlphanum || ch == '_' || ch == '.' || ch == '-'
  else if bset n AllowUnderscore && bset n AllowDots then
    ch.isAlphanum || ch == '_' || ch == '.'
  else if bset n AllowUnderscore && bset n AllowHyphen then
    ch.isAlphanum || ch == '_' || ch == '-'
  else if bset n AllowDots && bset n AllowHyphen then
    ch.isAlphanum || ch == '.' || ch == '-'
  else if bset n AllowUnderscore then
    ch.isAlphanum || ch == '_'
  else if bset n AllowDots then
    ch.isAlphanum || ch == '.'
  else
    ch.isAlphanum

/-- Full-text match against `[0-9]+` (the `reType` for `TypeInt`). -/
def intOne (cs : List Char) : Bool := cs != [] && cs.all Char.isDigit

/-- Full-text match against `[0-9]{1,16}\.[0-9]{1,16}` (the `reType` for
`TypeFloat`): exactly one literal dot, with 1–16 digits on each side. -/
def floatOne (cs : List Char) : Bool :=
  match splitOnChar '.' cs with
  | [a, b] =>
    a != [] && decide (a.length ≤ 16) && a.all Char.isDigit &&
    b != [] && decide (b.length ≤ 16) && b.all Char.isDigit
  | _ => false

/-- Full-text match against the alphanumeric class followed by `+`. -/
def anumOne (n : Nat) (cs : List Char) : Bool := cs != [] && cs.all (anumClass n)

/-- Full-text match of one instance against the `reType` pattern the source
builds (`cli_flag.go` lines 156–177): `[0-9]+` for `TypeInt`,
`[0-9]{1,16}\.[0-9]{1,16}` for `TypeFloat`, the selected class followed by
`+` for `TypeAlphanumeric`; for every other type `reType` stays the empty
string, which matches only the empty text. -/
def reTypeMatch (n : Nat) (cs : List Char) : Bool :=
  if bset n TypeInt then
    intOne cs
  else if bset n TypeFloat then
    floatOne cs
  else if bset n TypeAlphanumeric then
    anumOne n cs
  else
    cs == []

/-- Full-text match of the value against the final pattern `reValue`
(`cli_flag.go` lines 178–191): with `AllowMany` the pattern is
`^T(dT)*$` with delimiter `:` under `ManySeparatorColon`, `;` under
`ManySeparatorSemiColon`, else `,` — equivalently every delimiter-separated
chunk matches `T`; without `AllowMany` it is `^T$`. -/
def reValueMatch (n : Nat) (cs : List Char) : Bool :=
  if bset n AllowMany then
    let d : Char :=
      if bset n ManySeparatorColon then ':'
      else if bset n ManySeparatorSemiColon then ';'
      else ','
    (splitOnChar d cs).all (reTypeMatch n)
  else
    reTypeMatch n cs

/-- `ValidateValue` (`cli_flag.go` lines 82–198), translated branch for
branch.  In the `TypePathRegularFile` and `TypePathDir` branches the source
checks `os.IsNotExist(err)` and then unconditionally dereferences `fileInfo`;
when `os.Stat` fails with an error that is not `IsNotExist` (for example a
permission error) `fileInfo` is the nil interface and the method call panics
with a nil pointer dereference — modeled as `VResult.goPanic`. -/
def CLIFlag.ValidateValue (fs : FileSystem) (c : CLIFlag) (isArg : Bool) (nz az : String) : VResult :=
  -- both alias and name cannot be set
  if nz != "" && az != "" then
    .err ("Both -" ++ c.«alias» ++ " and --" ++ c.name ++ " passed")
  else
    let label := if isArg then "Argument" else "Flag"
    let nlabel := if isArg then c.helpValue else c.name
    -- empty
    if bset c.nflags Required && (nz == "" && az == "") &&
        (bset c.nflags TypeString || bset c.nflags TypePathFile || bset c.nflags TypePathRegularFile ||
         bset c.nflags TypePathDir || bset c.nflags TypeInt || bset c.nflags TypeFloat ||
         bset c.nflags TypeAlphanumeric) then
      .err (label ++ " " ++ nlabel ++ " is missing")
    -- string does not need any additional checks apart from the above one
    else if bset c.nflags TypeString then
      .ok
    else
      let v := if nz != "" then nz else az
      if bset c.nflags Required || v != "" then
        -- if flag is a file and have to exist
        if bset c.nflags TypePathFile then
          match fs.stat v with
          | .notExist => .err ("File " ++ v ++ " from " ++ nlabel ++ " does not exist")
          | _ => .ok
        -- if flag is a regular file and have to exist
        else if bset c.nflags TypePathRegularFile then
          match fs.stat v with
          | .notExist => .err ("File " ++ v ++ " from " ++ nlabel ++ " does not exist")
          | .statErr => .goPanic ("runtime error: invalid memory address or nil pointer dereference")
          | .found isRegular _ =>
            if !isRegular then
              .err ("Path " ++ v ++ " from " ++ nlabel ++ " is not a regular file")
            else if bset c.nflags ValidJSON then
              match fs.readFile v with
              | none => .err (v ++ " " ++ nlabel ++ " cannot be opened")
              | some dat =>
                if !(fs.jsonValid dat) then
                  .err (v ++ " " ++ nlabel ++ " is not a valid JSON")
                else
                  .ok
            else
              .ok
        -- if flag is a directory and have to exist
        else if bset c.nflags TypePathDir then
          match fs.stat v with
          | .notExist => .err ("Directory " ++ v ++ " from " ++ nlabel ++ " does not exist")
          | .statErr => .goPanic ("runtime error: invalid memory address or nil pointer dereference")
          | .found _ isDir =>
            if !isDir then
              .err ("Path " ++ v ++ " from " ++ nlabel ++ " is not a directory")
            else
              .ok
        else
          -- int, float, alphanumeric - single or many, separated by various chars
          if reValueMatch c.nflags v.data then
            .ok
          else
            .err (label ++ " " ++ nlabel ++ " has invalid value")
      else
        .ok

/-- A trivial filesystem used to instantiate theorems whose conclusion does
not depend on the filesystem. -/
def fs0 : FileSystem := ⟨fun _ => .notExist, fun _ => none, fun _ => false⟩

/-- C3: for every flag, regardless of the constraint bitmask and of `isArg`,
supplying both the long-form and the short-form value yields the
conflicting-forms error "Both -alias and --name passed" before any other
check. -/
theorem validateValue_conflicting_forms (fs : FileSystem) (c : CLIFlag) (isArg : Bool)
    (nz az : String) (hnz : nz ≠ "") (haz : az ≠ "") :
    c.ValidateValue fs isArg nz az = .err ("Both -" ++ c.«alias» ++ " and --" ++ c.name ++ " passed") := by
  simp [CLIFlag.ValidateValue, hnz, haz]

theorem validateValue_conflicting_forms_witness :
    CLIFlag.ValidateValue fs0 ⟨"name", "n", "VAL", "demo", Required ||| TypeString⟩ false "a" "b" =
      .err ("Both -n and --name passed") := by
  exact validateValue_conflicting_forms fs0 _ false "a" "b" (by decide) (by decide)

/-- A non-empty string has a non-empty character list. -/
theorem data_ne_nil_of_ne (v : String) (hv : v ≠ "") : v.data ≠ [] :=
  fun h => hv (String.ext h)

/-- Shared reduction: when the string and all three path type bits are clear
and the long-form value is non-empty, `ValidateValue` reaches the pattern
check and its result is decided by `reValueMatch`. -/
theorem validateValue_regex_branch (fs : FileSystem) (c : CLIFlag) (isArg : Bool) (v : String)
    (hS : bset c.nflags TypeString = false) (hPF : bset c.nflags TypePathFile = false)
    (hPR : bset c.nflags TypePathRegularFile = false) (hPD : bset c.nflags TypePathDir = false)
    (hv : v ≠ "") :
    c.ValidateValue fs isArg v "" =
      if reValueMatch c.nflags v.data then .ok
      else .err ((if isArg then "Argument" else "Flag") ++ " " ++
        (if isArg then c.helpValue else c.name) ++ " has invalid value") := by
  simp [CLIFlag.ValidateValue, bne_iff_ne, hv, hS, hPF, hPR, hPD]

/-- C9: `ValidateValue` is deterministic — it is a pure function of the flag,
the inputs and the filesystem state, so two calls with the same arguments and
the same filesystem state return the same result. -/
theorem validateValue_deterministic (fs : FileSystem) (c : CLIFlag) (isArg : Bool) (nz az : String) :
    c.ValidateValue fs isArg nz az = c.ValidateValue fs isArg nz az := rfl

/-- C2 (code bug): the source's alphanumeric modifier chain has no branch for
`AllowHyphen` alone, so such a flag falls back to the plain `[0-9a-zA-Z]+`
class: `"ab-12"` is rejected with the invalid-value error, although the
`AllowHyphen` doc comment says hyphens are additionally allowed; `"ab_12"`
and `"ab.12"` are rejected as the claim states. -/
theorem validateValue_allowHyphen_only_rejects_hyphen :
    CLIFlag.ValidateValue fs0 ⟨"tag", "t", "", "", TypeAlphanumeric ||| AllowHyphen⟩ false "ab-12" "" =
      .err ("Flag tag has invalid value") ∧
    CLIFlag.ValidateValue fs0 ⟨"tag", "t", "", "", TypeAlphanumeric ||| AllowHyphen⟩ false "ab_12" "" =
      .err ("Flag tag has invalid value") ∧
    CLIFlag.ValidateValue fs0 ⟨"tag", "t", "", "", TypeAlphanumeric ||| AllowHyphen⟩ false "ab.12" "" =
      .err ("Flag tag has invalid value") := by
  refine ⟨?_, ?_, ?_⟩ <;> decide

/-- C8 (code bug): when `os.Stat` fails with an error that is not
`IsNotExist` — for example a permission error — the `TypePathRegularFile`
branch dereferences the nil `FileInfo` and the call panics instead of
returning an error value. -/
theorem validateValue_stat_error_panics :
    CLIFlag.ValidateValue ⟨fun _ => .statErr, fun _ => none, fun _ => false⟩
      ⟨"cfg", "c", "", "", TypePathRegularFile⟩ false "/p" "" =
      .goPanic ("runtime error: invalid memory address or nil pointer dereference") := by
  decide

/-- C1 (counterexample): a flag whose only type bit is `TypeEmail` rejects the
supplied value `"a@b.com"` even though it passes the exclusivity and
required-presence checks — the constructed pattern is `^$`, so every
non-empty value fails the match. -/
theorem validateValue_email_rejects_nonempty :
    CLIFlag.ValidateValue fs0 ⟨"email", "e", "", "", TypeEmail⟩ false "a@b.com" "" =
      .err ("Flag email has invalid value") := by
  decide

/-- C1 (amended): for a flag with none of the string, path, int, float or
alphanumeric type bits — in particular when the only type bit is `TypeEmail`,
`TypeFQDN` or `TypeBool` — and `AllowMany` clear, the constructed pattern is
`^$`: every non-empty supplied value is rejected with the invalid-value
error, and an absent value (whether or not `Required` is set) succeeds. -/
theorem validateValue_email_fqdn_bool_empty_only (fs : FileSystem) (c : CLIFlag) (isArg : Bool)
    (v : String)
    (hS : bset c.nflags TypeString = false) (hPF : bset c.nflags TypePathFile = false)
    (hPR : bset c.nflags TypePathRegularFile = false) (hPD : bset c.nflags TypePathDir = false)
    (hI : bset c.nflags TypeInt = false) (hF : bset c.nflags TypeFloat = false)
    (hA : bset c.nflags TypeAlphanumeric = false) (hM : bset c.nflags AllowMany = false)
    (hv : v ≠ "") :
    c.ValidateValue fs isArg v "" =
      .err ((if isArg then "Argument" else "Flag") ++ " " ++
        (if isArg then c.helpValue else c.name) ++ " has invalid value") ∧
    c.ValidateValue fs isArg "" "" = .ok := by
  constructor
  · rw [validateValue_regex_branch fs c isArg v hS hPF hPR hPD hv]
    have hd := data_ne_nil_of_ne v hv
    simp [reValueMatch, reTypeMatch, hI, hF, hA, hM, hd]
  · cases hr : bset c.nflags Required <;>
      simp [CLIFlag.ValidateValue, reValueMatch, reTypeMatch, hr, hS, hPF, hPR, hPD, hI, hF, hA, hM]

theorem validateValue_email_fqdn_bool_empty_only_witness :
    CLIFlag.ValidateValue fs0 ⟨"host", "", "", "", TypeFQDN⟩ false "example.com" "" =
      .err ("Flag host has invalid value") ∧
    CLIFlag.ValidateValue fs0 ⟨"host", "", "", "", TypeFQDN⟩ false "" "" = .ok := by
  have h := validateValue_email_fqdn_bool_empty_only fs0 ⟨"host", "", "", "", TypeFQDN⟩ false
    "example.com" (by decide) (by decide) (by decide) (by decide) (by decide) (by decide)
    (by decide) (by decide) (by decide)
  exact ⟨h.1, h.2⟩

/-- C4: with `Required` set and a value-requiring type bit, calling
`ValidateValue` with both forms empty returns the missing-value error,
labelled "Flag" with the flag name or "Argument" with the help placeholder
according to `isArg`; with `Required` set but only the bool type bit (no
value-requiring bit), no error is returned at all. -/
theorem validateValue_required_missing (fs : FileSystem) (c : CLIFlag) (isArg : Bool) :
    (bset c.nflags Required = true → c.IsRequireValue = true →
      c.ValidateValue fs isArg "" "" =
        .err ((if isArg then "Argument" else "Flag") ++ " " ++
          (if isArg then c.helpValue else c.name) ++ " is missing")) ∧
    (bset c.nflags Required = true → bset c.nflags TypeBool = true → c.IsRequireValue = false →
      c.ValidateValue fs isArg "" "" = .ok) := by
  constructor
  · intro hreq hval
    have hchain : (bset c.nflags TypeString || bset c.nflags TypePathFile ||
        bset c.nflags TypePathRegularFile || bset c.nflags TypePathDir || bset c.nflags TypeInt ||
        bset c.nflags TypeFloat || bset c.nflags TypeAlphanumeric) = true := hval
    simp [CLIFlag.ValidateValue, hreq, hchain]
  · intro hreq _ hval
    have hchain := hval
    simp only [CLIFlag.IsRequireValue, Bool.or_eq_false_iff] at hchain
    obtain ⟨⟨⟨⟨⟨⟨hS, hPF⟩, hPR⟩, hPD⟩, hI⟩, hF⟩, hA⟩ := hchain
    cases hm : bset c.nflags AllowMany <;>
      simp [CLIFlag.ValidateValue, reValueMatch, reTypeMatch, splitOnChar,
        hreq, hm, hS, hPF, hPR, hPD, hI, hF, hA]

theorem validateValue_required_missing_witness :
    CLIFlag.ValidateValue fs0 ⟨"input", "i", "FILE", "", Required ||| TypePathFile⟩ true "" "" =
      .err ("Argument FILE is missing") ∧
    CLIFlag.ValidateValue fs0 ⟨"verbose", "v", "", "", Required ||| TypeBool⟩ false "" "" = .ok := by
  constructor
  · exact (validateValue_required_missing fs0 _ true).1 (by decide) (by decide)
  · exact (validateValue_required_missing fs0 _ false).2 (by decide) (by decide) (by decide)

/-- C5: for an int-typed flag with `AllowMany` and neither separator bit, the
value must be one or more runs of one-or-more digits joined by single commas,
matched in full — every comma-separated chunk must match `[0-9]+`; otherwise
the invalid-value error is returned. -/
theorem validateValue_int_allowMany_comma (fs : FileSystem) (c : CLIFlag) (isArg : Bool)
    (v : String)
    (hI : bset c.nflags TypeInt = true)
    (hS : bset c.nflags TypeString = false) (hPF : bset c.nflags TypePathFile = false)
    (hPR : bset c.nflags TypePathRegularFile = false) (hPD : bset c.nflags TypePathDir = false)
    (hM : bset c.nflags AllowMany = true)
    (hc : bset c.nflags ManySeparatorColon = false)
    (hsc : bset c.nflags ManySeparatorSemiColon = false)
    (hv : v ≠ "") :
    c.ValidateValue fs isArg v "" =
      if (splitOnChar ',' v.data).all intOne then .ok
      else .err ((if isArg then "Argument" else "Flag") ++ " " ++
        (if isArg then c.helpValue else c.name) ++ " has invalid value") := by
  rw [validateValue_regex_branch fs c isArg v hS hPF hPR hPD hv]
  simp [reValueMatch, reTypeMatch, hI, hM, hc, hsc]

theorem validateValue_int_allowMany_comma_witness :
    CLIFlag.ValidateValue fs0 ⟨"nums", "", "", "", TypeInt ||| AllowMany⟩ false "42" "" = .ok ∧
    CLIFlag.ValidateValue fs0 ⟨"nums", "", "", "", TypeInt ||| AllowMany⟩ false "42,7,100" "" = .ok ∧
    CLIFlag.ValidateValue fs0 ⟨"nums", "", "", "", TypeInt ||| AllowMany⟩ false "42," "" =
      .err ("Flag nums has invalid value") ∧
    CLIFlag.ValidateValue fs0 ⟨"nums", "", "", "", TypeInt ||| AllowMany⟩ false "4.2" "" =
      .err ("Flag nums has invalid value") := by
  refine ⟨?_, ?_, ?_, ?_⟩ <;>
    · rw [validateValue_int_allowMany_comma fs0 _ false _ (by decide) (by decide) (by decide)
        (by decide) (by decide) (by decide) (by decide) (by decide) (by decide)]
      decide

/-- C6: for a float-typed flag without `AllowMany`, a supplied value must
match `[0-9]{1,16}\.[0-9]{1,16}` in full — 1–16 digits, a literal dot, 1–16
digits — else the invalid-value error is returned; an empty value with
`Required` unset succeeds. -/
theorem validateValue_float_format (fs : FileSystem) (c : CLIFlag) (isArg : Bool) (v : String)
    (hF : bset c.nflags TypeFloat = true) (hI : bset c.nflags TypeInt = false)
    (hS : bset c.nflags TypeString = false) (hPF : bset c.nflags TypePathFile = false)
    (hPR : bset c.nflags TypePathRegularFile = false) (hPD : bset c.nflags TypePathDir = false)
    (hM : bset c.nflags AllowMany = false) :
    (v ≠ "" → c.ValidateValue fs isArg v "" =
      if floatOne v.data then .ok
      else .err ((if isArg then "Argument" else "Flag") ++ " " ++
        (if isArg then c.helpValue else c.name) ++ " has invalid value")) ∧
    (bset c.nflags Required = false → c.ValidateValue fs isArg "" "" = .ok) := by
  constructor
  · intro hv
    rw [validateValue_regex_branch fs c isArg v hS hPF hPR hPD hv]
    simp [reValueMatch, reTypeMatch, hF, hI, hM]
  · intro hr
    simp [CLIFlag.ValidateValue, hr, hS]

theorem validateValue_float_format_witness :
    CLIFlag.ValidateValue fs0 ⟨"rate", "r", "", "", TypeFloat⟩ false "3.14" "" = .ok ∧
    CLIFlag.ValidateValue fs0 ⟨"rate", "r", "", "", TypeFloat⟩ false "3" "" =
      .err ("Flag rate has invalid value") ∧
    CLIFlag.ValidateValue fs0 ⟨"rate", "r", "", "", TypeFloat⟩ false "1234567890123456.1" "" = .ok ∧
    CLIFlag.ValidateValue fs0 ⟨"rate", "r", "", "", TypeFloat⟩ false "12345678901234567.1" "" =
      .err ("Flag rate has invalid value") ∧
    CLIFlag.ValidateValue fs0 ⟨"rate", "r", "", "", TypeFloat⟩ false "" "" = .ok := by
  refine ⟨?_, ?_, ?_, ?_, ?_⟩
  · rw [(validateValue_float_format fs0 _ false "3.14" (by decide) (by decide) (by decide)
      (by decide) (by decide) (by decide) (by decide)).1 (by decide)]
    decide
  · rw [(validateValue_float_format fs0 _ false "3" (by decide) (by decide) (by decide)
      (by decide) (by decide) (by decide) (by decide)).1 (by decide)]
    decide
  · rw [(validateValue_float_format fs0 _ false "1234567890123456.1" (by decide) (by decide)
      (by decide) (by decide) (by decide) (by decide) (by decide)).1 (by decide)]
    decide
  · rw [(validateValue_float_format fs0 _ false "12345678901234567.1" (by decide) (by decide)
      (by decide) (by decide) (by decide) (by decide) (by decide)).1 (by decide)]
    decide
  · exact (validateValue_float_format fs0 _ false "x" (by decide) (by decide) (by decide)
      (by decide) (by decide) (by decide) (by decide)).2 (by decide)

/-- Bitwise helper: OR-ing in a bit pattern disjoint from the tested mask does
not change the AND with that mask. -/
theorem and_of_or_disjoint (n a c : Nat) (h : a &&& c = 0) : (n ||| a) &&& c = n &&& c := by
  apply Nat.eq_of_testBit_eq
  intro i
  have h2 : (a &&& c).testBit i = false := by rw [h]; exact Nat.zero_testBit i
  rw [Nat.testBit_and] at h2
  rw [Nat.testBit_and, Nat.testBit_or, Nat.testBit_and]
  cases hc : c.testBit i
  · simp
  · rw [hc] at h2
    simp at h2
    simp [h2, hc]

/-- `bset` form of `and_of_or_disjoint`. -/
theorem bset_or_disjoint (n a c : Nat) (h : a &&& c = 0) : bset (n ||| a) c = bset n c := by
  unfold bset
  rw [and_of_or_disjoint n a c h]

/-- C10: `MustExist` is never consulted by `ValidateValue`: on a constraint
mask with `MustExist` set the result is identical, for every input and every
filesystem state, to the result on the same mask with `MustExist` clear — in
particular the `TypePathFile` existence check runs whether or not `MustExist`
is set. -/
theorem validateValue_mustExist_noop (fs : FileSystem) (nm al hv dsc : String) (n : Nat)
    (isArg : Bool) (nz az : String) (h : n &&& MustExist = 0) :
    CLIFlag.ValidateValue fs ⟨nm, al, hv, dsc, n ||| MustExist⟩ isArg nz az =
      CLIFlag.ValidateValue fs ⟨nm, al, hv, dsc, n⟩ isArg nz az := by
  have key : ∀ k : Nat, MustExist &&& k = 0 → bset (n ||| MustExist) k = bset n k :=
    fun k hk => bset_or_disjoint n MustExist k hk
  have hanum : anumClass (n ||| MustExist) = anumClass n := by
    funext ch
    simp only [anumClass, key AllowHyphen (by decide), key AllowUnderscore (by decide),
      key AllowDots (by decide)]
  have hrt : reTypeMatch (n ||| MustExist) = reTypeMatch n := by
    funext cs
    simp only [reTypeMatch, anumOne, hanum, key TypeInt (by decide), key TypeFloat (by decide),
      key TypeAlphanumeric (by decide)]
  have hrv : reValueMatch (n ||| MustExist) = reValueMatch n := by
    funext cs
    simp only [reValueMatch, hrt, key AllowMany (by decide), key ManySeparatorColon (by decide),
      key ManySeparatorSemiColon (by decide)]
  simp only [CLIFlag.ValidateValue, hrv, key Required (by decide), key TypeString (by decide),
    key TypePathFile (by decide), key TypePathRegularFile (by decide),
    key TypePathDir (by decide), key TypeInt (by decide), key TypeFloat (by decide),
    key TypeAlphanumeric (by decide), key ValidJSON (by decide)]

theorem validateValue_mustExist_noop_witness :
    CLIFlag.ValidateValue fs0 ⟨"file", "f", "", "", (Required ||| TypePathFile) ||| MustExist⟩
        false "/tmp/x" "" =
      CLIFlag.ValidateValue fs0 ⟨"file", "f", "", "", Required ||| TypePathFile⟩ false "/tmp/x" "" := by
  exact validateValue_mustExist_noop fs0 "file" "f" "" "" (Required ||| TypePathFile) false
    "/tmp/x" "" (by decide)

/-- The last character of an appended string is the last character of its
non-empty second part. -/
theorem lastChar_append (s t : String) (h : t.data ≠ []) :
    (s ++ t).data.reverse.head? = t.data.reverse.head? := by
  rw [String.data_append, List.reverse_append]
  cases ht : t.data.reverse with
  | nil => exact absurd (List.reverse_eq_nil_iff.mp ht) h
  | cons a l => simp

/-- Two strings with distinct non-empty literal suffixes are distinct. -/
theorem append_ne_of_last (s₁ s₂ t₁ t₂ : String) (h₁ : t₁.data ≠ []) (h₂ : t₂.data ≠ [])
    (hne : t₁.data.reverse.head? ≠ t₂.data.reverse.head?) : s₁ ++ t₁ ≠ s₂ ++ t₂ := by
  intro h
  apply hne
  rw [← lastChar_append s₁ t₁ h₁, ← lastChar_append s₂ t₂ h₂, h]

/-- C7: for a `TypePathRegularFile` flag with `ValidJSON` and a supplied
value: a regular file with JSON-valid contents succeeds; a regular file with
JSON-invalid contents yields the invalid-JSON error; a directory yields the
not-a-regular-file error; a nonexistent path yields the does-not-exist error;
an unreadable regular file yields the cannot-be-opened error — and the four
error messages are pairwise distinct. -/
theorem validateValue_pathRegularFile_validJSON (fs : FileSystem) (c : CLIFlag) (isArg : Bool)
    (v content : String) (isDir : Bool)
    (hPR : bset c.nflags TypePathRegularFile = true) (hJ : bset c.nflags ValidJSON = true)
    (hS : bset c.nflags TypeString = false) (hPF : bset c.nflags TypePathFile = false)
    (hv : v ≠ "") :
    (fs.stat v = .found true isDir → fs.readFile v = some content → fs.jsonValid content = true →
      c.ValidateValue fs isArg v "" = .ok) ∧
    (fs.stat v = .found true isDir → fs.readFile v = some content → fs.jsonValid content = false →
      c.ValidateValue fs isArg v "" =
        .err (v ++ " " ++ (if isArg then c.helpValue else c.name) ++ " is not a valid JSON")) ∧
    (fs.stat v = .found false isDir →
      c.ValidateValue fs isArg v "" =
        .err ("Path " ++ v ++ " from " ++ (if isArg then c.helpValue else c.name) ++
          " is not a regular file")) ∧
    (fs.stat v = .notExist →
      c.ValidateValue fs isArg v "" =
        .err ("File " ++ v ++ " from " ++ (if isArg then c.helpValue else c.name) ++
          " does not exist")) ∧
    (fs.stat v = .found true isDir → fs.readFile v = none →
      c.ValidateValue fs isArg v "" =
        .err (v ++ " " ++ (if isArg then c.helpValue else c.name) ++ " cannot be opened")) ∧
    ("File " ++ v ++ " from " ++ (if isArg then c.helpValue else c.name) ++ " does not exist") ≠
      ("Path " ++ v ++ " from " ++ (if isArg then c.helpValue else c.name) ++
        " is not a regular file") ∧
    ("File " ++ v ++ " from " ++ (if isArg then c.helpValue else c.name) ++ " does not exist") ≠
      (v ++ " " ++ (if isArg then c.helpValue else c.name) ++ " cannot be opened") ∧
    ("File " ++ v ++ " from " ++ (if isArg then c.helpValue else c.name) ++ " does not exist") ≠
      (v ++ " " ++ (if isArg then c.helpValue else c.name) ++ " is not a valid JSON") ∧
    ("Path " ++ v ++ " from " ++ (if isArg then c.helpValue else c.name) ++
        " is not a regular file") ≠
      (v ++ " " ++ (if isArg then c.helpValue else c.name) ++ " cannot be opened") ∧
    ("Path " ++ v ++ " from " ++ (if isArg then c.helpValue else c.name) ++
        " is not a regular file") ≠
      (v ++ " " ++ (if isArg then c.helpValue else c.name) ++ " is not a valid JSON") ∧
    (v ++ " " ++ (if isArg then c.helpValue else c.name) ++ " cannot be opened") ≠
      (v ++ " " ++ (if isArg then c.helpValue else c.name) ++ " is not a valid JSON") := by
  refine ⟨?_, ?_, ?_, ?_, ?_, ?_, ?_, ?_, ?_, ?_, ?_⟩
  · intro hstat hread hjson
    simp [CLIFlag.ValidateValue, bne_iff_ne, hv, hS, hPF, hPR, hJ, hstat, hread, hjson]
  · intro hstat hread hjson
    simp [CLIFlag.ValidateValue, bne_iff_ne, hv, hS, hPF, hPR, hJ, hstat, hread, hjson]
  · intro hstat
    simp [CLIFlag.ValidateValue, bne_iff_ne, hv, hS, hPF, hPR, hstat]
  · intro hstat
    simp [CLIFlag.ValidateValue, bne_iff_ne, hv, hS, hPF, hPR, hstat]
  · intro hstat hread
    simp [CLIFlag.ValidateValue, bne_iff_ne, hv, hS, hPF, hPR, hJ, hstat, hread]
  · exact append_ne_of_last _ _ _ _ (by decide) (by decide) (by decide)
  · exact append_ne_of_last _ _ _ _ (by decide) (by decide) (by decide)
  · exact append_ne_of_last _ _ _ _ (by decide) (by decide) (by decide)
  · exact append_ne_of_last _ _ _ _ (by decide) (by decide) (by decide)
  · exact append_ne_of_last _ _ _ _ (by decide) (by decide) (by decide)
  · exact append_ne_of_last _ _ _ _ (by decide) (by decide) (by decide)

/-- A filesystem with a JSON-valid regular file, a JSON-invalid regular file,
a directory, a missing path and an unreadable regular file; `jsonValid`
reflects `encoding/json.Valid`, which accepts `{"a":1}` and rejects `{a:1}`. -/
def fsJson : FileSystem :=
  ⟨fun p => if p == "/dir" then .found false true
    else if p == "/none" then .notExist
    else .found true false,
   fun p => if p == "/good" then some "\x7b\"a\":1\x7d"
    else if p == "/bad" then some "\x7ba:1\x7d"
    else none,
   fun s => s == "\x7b\"a\":1\x7d"⟩

theorem validateValue_pathRegularFile_validJSON_witness :
    CLIFlag.ValidateValue fsJson ⟨"conf", "c", "", "", TypePathRegularFile ||| ValidJSON⟩
        false "/good" "" = .ok ∧
    CLIFlag.ValidateValue fsJson ⟨"conf", "c", "", "", TypePathRegularFile ||| ValidJSON⟩
        false "/bad" "" = .err ("/bad conf is not a valid JSON") ∧
    CLIFlag.ValidateValue fsJson ⟨"conf", "c", "", "", TypePathRegularFile ||| ValidJSON⟩
        false "/dir" "" = .err ("Path /dir from conf is not a regular file") ∧
    CLIFlag.ValidateValue fsJson ⟨"conf", "c", "", "", TypePathRegularFile ||| ValidJSON⟩
        false "/none" "" = .err ("File /none from conf does not exist") ∧
    CLIFlag.ValidateValue fsJson ⟨"conf", "c", "", "", TypePathRegularFile ||| ValidJSON⟩
        false "/unread" "" = .err ("/unread conf cannot be opened") := by
  refine ⟨?_, ?_, ?_, ?_, ?_⟩
  · exact (validateValue_pathRegularFile_validJSON fsJson _ false "/good" "\x7b\"a\":1\x7d" false
      (by decide) (by decide) (by decide) (by decide) (by decide)).1
      (by decide) (by decide) (by decide)
  · exact (validateValue_pathRegularFile_validJSON fsJson _ false "/bad" "\x7ba:1\x7d" false
      (by decide) (by decide) (by decide) (by decide) (by decide)).2.1
      (by decide) (by decide) (by decide)
  · exact (validateValue_pathRegularFile_validJSON fsJson _ false "/dir" "" true
      (by decide) (by decide) (by decide) (by decide) (by decide)).2.2.1 (by decide)
  · exact (validateValue_pathRegularFile_validJSON fsJson _ false "/none" "" false
      (by decide) (by decide) (by decide) (by decide) (by decide)).2.2.2.1 (by decide)
  · exact (validateValue_pathRegularFile_validJSON fsJson _ false "/unread" "" false
      (by decide) (by decide) (by decide) (by decide) (by decide)).2.2.2.2.1
      (by decide) (by decide)

end Cli
